import Mathlib

/-!
Verification of `src/legal-document-automation.js`, a structured-notes
payment calculator.  JavaScript numbers are modelled as exact rationals
(`ℚ`); a JavaScript value that may fail the `typeof x === 'number'` test
is modelled as `Option ℚ` (`none` = any non-number value).  Functions
that can `throw` return `Except`.
-/

namespace FinancialAutomation

/-- A JavaScript value in a numeric position: `some q` is a number with
exact value `q`; `none` is any non-number value (string, undefined, ...). -/
abbrev JSNum := Option ℚ

/-- The financial parameter record, all fields numeric
(mirrors the shape of `FINANCIAL_PARAMS` and of any params object
reaching the arithmetic of `calculatePaymentAtMaturity`). -/
structure FinancialParams where
  PRINCIPAL_AMOUNT : ℚ
  CONTINGENT_INTEREST_RATE : ℚ
  MONTHLY_INTEREST_RATE : ℚ
  BUFFER_THRESHOLD : ℚ
  BUFFER_AMOUNT : ℚ
  CONTINGENT_INTEREST_PAYMENT : ℚ
deriving DecidableEq

/-- The default parameter object `FINANCIAL_PARAMS` (source lines 9-16). -/
def FINANCIAL_PARAMS : FinancialParams :=
  ⟨1000, 0.122, 0.0101667, 0.90, 0.10, 10.1667⟩

/-- The only error `calculatePaymentAtMaturity` can throw:
`Error('Underlying return must be a number')`. -/
inductive CalcError where
  | invalidInput
deriving DecidableEq

/-- `calculatePaymentAtMaturity` (source lines 33-69).  The result pairs
the returned payment with a `Bool` recording whether the non-fatal
`console.warn` advisory for `underlyingReturn < -1` fired. -/
def calculatePaymentAtMaturity (underlyingReturn : JSNum)
    (params : FinancialParams) : Except CalcError (ℚ × Bool) :=
  match underlyingReturn with
  | none => Except.error CalcError.invalidInput
  | some r =>
    let warned := decide (r < -1)
    if 1 + r ≥ params.BUFFER_THRESHOLD then
      Except.ok (params.PRINCIPAL_AMOUNT + params.CONTINGENT_INTEREST_PAYMENT, warned)
    else
      let adjustedReturn := r + params.BUFFER_AMOUNT
      let payment := params.PRINCIPAL_AMOUNT + params.PRINCIPAL_AMOUNT * adjustedReturn
      Except.ok (max payment 0, warned)

/-- The payment a call returns, forgetting the advisory flag
(`none` when the call throws). -/
def paymentValue (res : Except CalcError (ℚ × Bool)) : Option ℚ :=
  match res with
  | Except.ok pw => some pw.1
  | Except.error _ => none

/-- The §3 invariant on a parameter set: all fields numeric (enforced by
the type), `bufferThreshold` strictly in (0,1], `principalAmount` > 0. -/
def SatisfiesInvariant (p : FinancialParams) : Prop :=
  0 < p.BUFFER_THRESHOLD ∧ p.BUFFER_THRESHOLD ≤ 1 ∧ 0 < p.PRINCIPAL_AMOUNT

instance (p : FinancialParams) : Decidable (SatisfiesInvariant p) := by
  unfold SatisfiesInvariant
  infer_instance

/-- C1: for every numeric return `r` with `r ≥ bufferThreshold - 1` and
every parameter set, the call returns exactly
`principalAmount + contingentInterestPayment`, independent of `r`. -/
theorem flat_region (r : ℚ) (params : FinancialParams)
    (h : params.BUFFER_THRESHOLD - 1 ≤ r) :
    paymentValue (calculatePaymentAtMaturity (some r) params) =
      some (params.PRINCIPAL_AMOUNT + params.CONTINGENT_INTEREST_PAYMENT) := by
  have h1 : params.BUFFER_THRESHOLD ≤ 1 + r := by linarith
  simp [calculatePaymentAtMaturity, paymentValue, ge_iff_le, h1]

/-- Witness for C1 at `r = 2` with the default parameters. -/
theorem flat_region_witness :
    paymentValue (calculatePaymentAtMaturity (some 2) FINANCIAL_PARAMS) =
      some (FINANCIAL_PARAMS.PRINCIPAL_AMOUNT + FINANCIAL_PARAMS.CONTINGENT_INTEREST_PAYMENT) :=
  flat_region 2 FINANCIAL_PARAMS (by norm_num [FINANCIAL_PARAMS])

/-- C2: for every numeric return `r` with `r < bufferThreshold - 1` and
every parameter set, the call returns exactly
`max(0, principalAmount + principalAmount * (r + bufferAmount))`. -/
theorem downside_region (r : ℚ) (params : FinancialParams)
    (h : r < params.BUFFER_THRESHOLD - 1) :
    paymentValue (calculatePaymentAtMaturity (some r) params) =
      some (max 0 (params.PRINCIPAL_AMOUNT +
        params.PRINCIPAL_AMOUNT * (r + params.BUFFER_AMOUNT))) := by
  have h1 : ¬ params.BUFFER_THRESHOLD ≤ 1 + r := by linarith
  simp [calculatePaymentAtMaturity, paymentValue, ge_iff_le, h1, max_comm]

/-- Witness for C2 at `r = -0.5` with the default parameters. -/
theorem downside_region_witness :
    paymentValue (calculatePaymentAtMaturity (some (-0.5)) FINANCIAL_PARAMS) =
      some (max 0 (FINANCIAL_PARAMS.PRINCIPAL_AMOUNT +
        FINANCIAL_PARAMS.PRINCIPAL_AMOUNT * (-0.5 + FINANCIAL_PARAMS.BUFFER_AMOUNT))) :=
  downside_region (-0.5) FINANCIAL_PARAMS (by norm_num [FINANCIAL_PARAMS])

/-- C3 counterexample: with the default parameters the call at `-1.0`
does not return `0`. -/
theorem total_loss_not_zero :
    paymentValue (calculatePaymentAtMaturity (some (-1)) FINANCIAL_PARAMS) ≠ some 0 := by
  norm_num [calculatePaymentAtMaturity, paymentValue, FINANCIAL_PARAMS]

/-- C3 amended: with the default parameters the call at `-1.0` returns
`100` — the downside branch gives `1000 + 1000 * (-1 + 0.10) = 100`, so
the zero floor is not reached. -/
theorem total_loss_pays_buffer :
    paymentValue (calculatePaymentAtMaturity (some (-1)) FINANCIAL_PARAMS) = some 100 := by
  norm_num [calculatePaymentAtMaturity, paymentValue, FINANCIAL_PARAMS]

/-- C4: with the default parameters the boundary input `-0.10` takes the
flat branch giving exactly `1010.1667`, while `-0.1001` takes the
downside branch giving exactly `999.9`. -/
theorem boundary_behaviour :
    paymentValue (calculatePaymentAtMaturity (some (-0.10)) FINANCIAL_PARAMS) =
        some 1010.1667 ∧
      paymentValue (calculatePaymentAtMaturity (some (-0.1001)) FINANCIAL_PARAMS) =
        some 999.9 := by
  constructor <;> norm_num [calculatePaymentAtMaturity, paymentValue, FINANCIAL_PARAMS]

/-- A parameter set meeting the §3 invariant but with a negative
contingent interest payment (the invariant does not constrain it). -/
def negativeCouponParams : FinancialParams :=
  ⟨1000, 0.122, 0.0101667, 0.90, 0.10, -2000⟩

/-- C5 counterexample: `negativeCouponParams` satisfies the section-3
invariant, yet the call at `r = 0` (flat branch) returns `-1000 < 0`. -/
theorem nonneg_counterexample :
    SatisfiesInvariant negativeCouponParams ∧
      paymentValue (calculatePaymentAtMaturity (some 0) negativeCouponParams) =
        some (-1000) ∧
      (-1000 : ℚ) < 0 := by
  refine ⟨?_, ?_, by norm_num⟩
  · norm_num [SatisfiesInvariant, negativeCouponParams]
  · norm_num [calculatePaymentAtMaturity, paymentValue, negativeCouponParams]

/-- C5 amended: for every numeric return and every parameter set
satisfying the §3 invariant whose contingent interest payment is also
non-negative, the returned value is non-negative. -/
theorem payment_nonneg (r : ℚ) (params : FinancialParams)
    (hinv : SatisfiesInvariant params)
    (hcip : 0 ≤ params.CONTINGENT_INTEREST_PAYMENT) :
    ∃ q, paymentValue (calculatePaymentAtMaturity (some r) params) = some q ∧
      0 ≤ q := by
  obtain ⟨hbt, hbt1, hpa⟩ := hinv
  by_cases h : params.BUFFER_THRESHOLD ≤ 1 + r
  · refine ⟨params.PRINCIPAL_AMOUNT + params.CONTINGENT_INTEREST_PAYMENT, ?_, by linarith⟩
    simp [calculatePaymentAtMaturity, paymentValue, ge_iff_le, h]
  · refine ⟨max (params.PRINCIPAL_AMOUNT +
      params.PRINCIPAL_AMOUNT * (r + params.BUFFER_AMOUNT)) 0, ?_, le_max_right _ _⟩
    simp [calculatePaymentAtMaturity, paymentValue, ge_iff_le, h]

/-- Witness for C5 amended at `r = 0.5` with the default parameters. -/
theorem payment_nonneg_witness :
    ∃ q, paymentValue (calculatePaymentAtMaturity (some 0.5) FINANCIAL_PARAMS) = some q ∧
      0 ≤ q :=
  payment_nonneg 0.5 FINANCIAL_PARAMS
    (by norm_num [SatisfiesInvariant, FINANCIAL_PARAMS])
    (by norm_num [FINANCIAL_PARAMS])

/-- C7: a call throws exactly when the underlying return is not a
number; a numeric return below `-1` does not throw, still returns the
downside-formula value, and only sets the advisory flag, which stays
unset for returns at or above `-1`. -/
theorem throws_iff_nonnumeric (params : FinancialParams)
    (h : 0 < params.BUFFER_THRESHOLD) :
    (∀ v : JSNum,
        (∃ e, calculatePaymentAtMaturity v params = Except.error e) ↔ v = none) ∧
      (∀ r : ℚ, r < -1 →
        calculatePaymentAtMaturity (some r) params =
          Except.ok (max (params.PRINCIPAL_AMOUNT +
            params.PRINCIPAL_AMOUNT * (r + params.BUFFER_AMOUNT)) 0, true)) ∧
      (∀ r : ℚ, -1 ≤ r →
        ∃ q, calculatePaymentAtMaturity (some r) params = Except.ok (q, false)) := by
  refine ⟨?_, ?_, ?_⟩
  · intro v
    match v with
    | none =>
      simp only [calculatePaymentAtMaturity, iff_true]
      exact ⟨CalcError.invalidInput, trivial⟩
    | some r =>
      simp only [calculatePaymentAtMaturity, reduceCtorEq, iff_false, not_exists]
      intro e
      by_cases hc : params.BUFFER_THRESHOLD ≤ 1 + r <;> simp [ge_iff_le, hc]
  · intro r hr
    have hc : ¬ params.BUFFER_THRESHOLD ≤ 1 + r := by linarith
    have hw : decide (r < -1) = true := by simpa using hr
    simp [calculatePaymentAtMaturity, ge_iff_le, hc, hw]
  · intro r hr
    have hw : decide (r < -1) = false := by simpa using hr
    by_cases hc : params.BUFFER_THRESHOLD ≤ 1 + r
    · exact ⟨params.PRINCIPAL_AMOUNT + params.CONTINGENT_INTEREST_PAYMENT,
        by simp [calculatePaymentAtMaturity, ge_iff_le, hc, hw]⟩
    · exact ⟨max (params.PRINCIPAL_AMOUNT +
          params.PRINCIPAL_AMOUNT * (r + params.BUFFER_AMOUNT)) 0,
        by simp [calculatePaymentAtMaturity, ge_iff_le, hc, hw]⟩

/-- Witness for C7: with the default parameters, the call at `-2`
returns the downside value with the advisory flag set. -/
theorem throws_iff_nonnumeric_witness :
    calculatePaymentAtMaturity (some (-2)) FINANCIAL_PARAMS =
      Except.ok (max (FINANCIAL_PARAMS.PRINCIPAL_AMOUNT +
        FINANCIAL_PARAMS.PRINCIPAL_AMOUNT * (-2 + FINANCIAL_PARAMS.BUFFER_AMOUNT)) 0, true) :=
  (throws_iff_nonnumeric FINANCIAL_PARAMS
    (by norm_num [FINANCIAL_PARAMS])).2.1 (-2) (by norm_num)

/-- The per-row payment slot of a table entry: a computed amount, or the
string marker pushed by the `catch` branch. -/
inductive PaymentCell where
  | val (amount : ℚ)
  | errorMarker
deriving DecidableEq

/-- One entry of the payment table (the formatted display strings are
presentation only and carry no further information). -/
structure PaymentRow where
  underlyingReturn : JSNum
  paymentAtMaturity : PaymentCell
deriving DecidableEq

/-- The body of the `for` loop of `generatePaymentTable` (source lines
99-120) applied to one entry: `try` the calculation and push the result,
`catch` and push the error marker. -/
def tableRow (params : FinancialParams) (r : JSNum) : PaymentRow :=
  match calculatePaymentAtMaturity r params with
  | Except.ok pw => ⟨r, PaymentCell.val pw.1⟩
  | Except.error _ => ⟨r, PaymentCell.errorMarker⟩

/-- The `for` loop of `generatePaymentTable` over an arbitrary sequence
of entries, mirroring the source's push-per-iteration structure. -/
def generatePaymentTableOn (params : FinancialParams) :
    List JSNum → List PaymentRow
  | [] => []
  | r :: rest =>
    (match calculatePaymentAtMaturity r params with
      | Except.ok pw => (⟨r, PaymentCell.val pw.1⟩ : PaymentRow)
      | Except.error _ => ⟨r, PaymentCell.errorMarker⟩) ::
      generatePaymentTableOn params rest

/-- The literal sample-return list of `generatePaymentTable`
(source lines 81-96); every entry is a number. -/
def underlyingReturns : List JSNum :=
  [some 0.60, some 0.40, some 0.20, some 0.05, some 0.00, some (-0.05),
   some (-0.10), some (-0.1001), some (-0.20), some (-0.30), some (-0.40),
   some (-0.60), some (-0.80), some (-1.00)]

/-- `generatePaymentTable` (source lines 77-123). -/
def generatePaymentTable (params : FinancialParams) : List PaymentRow :=
  generatePaymentTableOn params underlyingReturns

/-- Helper: the loop is elementwise, one output row per input entry. -/
theorem generatePaymentTableOn_eq_map (params : FinancialParams)
    (rs : List JSNum) :
    generatePaymentTableOn params rs = rs.map (tableRow params) := by
  induction rs with
  | nil => rfl
  | cons r rest ih =>
    simp only [generatePaymentTableOn, List.map, ih, tableRow]

/-- Helper: a call on a numeric return never throws. -/
theorem calc_some_ok (params : FinancialParams) (r : ℚ) :
    ∃ pw, calculatePaymentAtMaturity (some r) params = Except.ok pw := by
  by_cases hc : params.BUFFER_THRESHOLD ≤ 1 + r
  · exact ⟨(params.PRINCIPAL_AMOUNT + params.CONTINGENT_INTEREST_PAYMENT,
      decide (r < -1)), by simp [calculatePaymentAtMaturity, ge_iff_le, hc]⟩
  · exact ⟨(max (params.PRINCIPAL_AMOUNT +
        params.PRINCIPAL_AMOUNT * (r + params.BUFFER_AMOUNT)) 0,
      decide (r < -1)), by simp [calculatePaymentAtMaturity, ge_iff_le, hc]⟩

/-- Helper: a row built from a numeric entry never carries the marker. -/
theorem tableRow_some_ok (params : FinancialParams) (r : ℚ) :
    (tableRow params (some r)).paymentAtMaturity ≠ PaymentCell.errorMarker := by
  obtain ⟨pw, hpw⟩ := calc_some_ok params r
  simp [tableRow, hpw]

/-- C8: the table is the input sequence mapped rowwise in order (so it
has one row per sample return, in input order, each computed
independently from its own entry), each row keeps its own return value,
and a row carries the error marker exactly when computing that one entry
throws — other rows are unaffected. -/
theorem paymentTable_rowwise (params : FinancialParams) (rs : List JSNum) :
    generatePaymentTable params = underlyingReturns.map (tableRow params) ∧
      generatePaymentTableOn params rs = rs.map (tableRow params) ∧
      (∀ r : JSNum, (tableRow params r).underlyingReturn = r) ∧
      (∀ r : JSNum,
        ((tableRow params r).paymentAtMaturity = PaymentCell.errorMarker ↔
          ∃ e, calculatePaymentAtMaturity r params = Except.error e)) := by
  refine ⟨?_, generatePaymentTableOn_eq_map params rs, ?_, ?_⟩
  · exact generatePaymentTableOn_eq_map params underlyingReturns
  · intro r
    unfold tableRow
    match h : calculatePaymentAtMaturity r params with
    | Except.ok pw => simp [h]
    | Except.error e => simp [h]
  · intro r
    unfold tableRow
    match h : calculatePaymentAtMaturity r params with
    | Except.ok pw => simp [h]
    | Except.error e => exact iff_of_true rfl ⟨e, rfl⟩

/-- C10: no row of the table ever carries the error marker, for any
parameter set, because every entry of the literal sample list is a
number and the calculator only throws on non-numbers. -/
theorem default_table_no_errors (params : FinancialParams)
    (row : PaymentRow) (hmem : row ∈ generatePaymentTable params) :
    row.paymentAtMaturity ≠ PaymentCell.errorMarker := by
  rw [generatePaymentTable, generatePaymentTableOn_eq_map, List.mem_map] at hmem
  obtain ⟨x, hx, hrow⟩ := hmem
  have hall : ∀ y ∈ underlyingReturns, y.isSome = true := by decide
  have hsome : x.isSome = true := hall x hx
  obtain ⟨r, hr⟩ := Option.isSome_iff_exists.mp hsome
  subst hrow
  rw [hr]
  exact tableRow_some_ok params r

/-- Witness for C10: the first row of the default table. -/
theorem default_table_no_errors_witness :
    (⟨some 0.60, PaymentCell.val 1010.1667⟩ : PaymentRow).paymentAtMaturity ≠
      PaymentCell.errorMarker :=
  default_table_no_errors FINANCIAL_PARAMS ⟨some 0.60, PaymentCell.val 1010.1667⟩
    (by
      rw [generatePaymentTable, generatePaymentTableOn_eq_map]
      refine List.mem_map.mpr ⟨some 0.60, by simp [underlyingReturns], ?_⟩
      norm_num [tableRow, calculatePaymentAtMaturity, FINANCIAL_PARAMS])

/-- A parameter object as seen by the validator: each field may be a
number (`some q`) or missing / non-numeric (`none`). -/
structure RawParams where
  PRINCIPAL_AMOUNT : JSNum
  CONTINGENT_INTEREST_RATE : JSNum
  MONTHLY_INTEREST_RATE : JSNum
  BUFFER_THRESHOLD : JSNum
  BUFFER_AMOUNT : JSNum
  CONTINGENT_INTEREST_PAYMENT : JSNum
deriving DecidableEq

/-- The field names in the validator's `requiredFields` list. -/
inductive ParamField where
  | principalAmount
  | contingentInterestRate
  | bufferThreshold
  | bufferAmount
  | contingentInterestPayment
deriving DecidableEq

/-- The errors `validateFinancialParams` can throw. -/
inductive ParamError where
  | notANumber (field : ParamField)
  | thresholdOutOfRange
  | principalNotPositive
deriving DecidableEq

/-- JavaScript property lookup `params[field]` for the checked fields. -/
def getField (p : RawParams) : ParamField → JSNum
  | ParamField.principalAmount => p.PRINCIPAL_AMOUNT
  | ParamField.contingentInterestRate => p.CONTINGENT_INTEREST_RATE
  | ParamField.bufferThreshold => p.BUFFER_THRESHOLD
  | ParamField.bufferAmount => p.BUFFER_AMOUNT
  | ParamField.contingentInterestPayment => p.CONTINGENT_INTEREST_PAYMENT

/-- The validator's `requiredFields` list (source lines 155-161);
note `MONTHLY_INTEREST_RATE` is absent. -/
def requiredFields : List ParamField :=
  [ParamField.principalAmount, ParamField.contingentInterestRate,
   ParamField.bufferThreshold, ParamField.bufferAmount,
   ParamField.contingentInterestPayment]

/-- The validator's `for (const field of requiredFields)` typeof loop. -/
def checkNumericFields (p : RawParams) : List ParamField → Except ParamError Unit
  | [] => Except.ok ()
  | f :: rest =>
    match getField p f with
    | none => Except.error (ParamError.notANumber f)
    | some _ => checkNumericFields p rest

/-- JavaScript `x <= c` on a possibly-non-numeric `x` (comparisons with
a non-number are false, as with `NaN`). -/
def jsLE (x : JSNum) (c : ℚ) : Bool :=
  match x with
  | none => false
  | some v => decide (v ≤ c)

/-- JavaScript `x > c` on a possibly-non-numeric `x`. -/
def jsGT (x : JSNum) (c : ℚ) : Bool :=
  match x with
  | none => false
  | some v => decide (c < v)

/-- `validateFinancialParams` (source lines 154-178). -/
def validateFinancialParams (params : RawParams) : Except ParamError Bool :=
  match checkNumericFields params requiredFields with
  | Except.error e => Except.error e
  | Except.ok _ =>
    if jsLE params.BUFFER_THRESHOLD 0 || jsGT params.BUFFER_THRESHOLD 1 then
      Except.error ParamError.thresholdOutOfRange
    else if jsLE params.PRINCIPAL_AMOUNT 0 then
      Except.error ParamError.principalNotPositive
    else
      Except.ok true

/-- The default parameter object as the validator sees it. -/
def FINANCIAL_PARAMS_RAW : RawParams :=
  ⟨some 1000, some 0.122, some 0.0101667, some 0.90, some 0.10, some 10.1667⟩

/-- Replace only the `MONTHLY_INTEREST_RATE` field. -/
def withMonthlyRate (p : RawParams) (m : JSNum) : RawParams :=
  ⟨p.PRINCIPAL_AMOUNT, p.CONTINGENT_INTEREST_RATE, m,
   p.BUFFER_THRESHOLD, p.BUFFER_AMOUNT, p.CONTINGENT_INTEREST_PAYMENT⟩

/-- The defaults with `bufferThreshold = 1.5`. -/
def rawWithBadThreshold : RawParams :=
  ⟨some 1000, some 0.122, some 0.0101667, some 1.5, some 0.10, some 10.1667⟩

/-- The defaults with `principalAmount = -5`. -/
def rawWithBadPrincipal : RawParams :=
  ⟨some (-5), some 0.122, some 0.0101667, some 0.90, some 0.10, some 10.1667⟩

/-- C6: the validator returns `true` exactly when the five checked
fields are numeric, `bufferThreshold` lies in `(0, 1]` and
`principalAmount` is positive; it never returns `false` (any other
outcome is a thrown error), and it rejects the defaults altered to
`bufferThreshold = 1.5` or to `principalAmount = -5`. -/
theorem validateFinancialParams_correct :
    (∀ p : RawParams,
        validateFinancialParams p = Except.ok true ↔
          ((∃ pa, p.PRINCIPAL_AMOUNT = some pa ∧ 0 < pa) ∧
            (p.CONTINGENT_INTEREST_RATE).isSome = true ∧
            (∃ bt, p.BUFFER_THRESHOLD = some bt ∧ 0 < bt ∧ bt ≤ 1) ∧
            (p.BUFFER_AMOUNT).isSome = true ∧
            (p.CONTINGENT_INTEREST_PAYMENT).isSome = true)) ∧
      (∀ p : RawParams, validateFinancialParams p ≠ Except.ok false) ∧
      validateFinancialParams rawWithBadThreshold =
        Except.error ParamError.thresholdOutOfRange ∧
      validateFinancialParams rawWithBadPrincipal =
        Except.error ParamError.principalNotPositive := by
  refine ⟨?_, ?_, ?_, ?_⟩
  · intro p
    obtain ⟨pa, cir, mir, bt, ba, cip⟩ := p
    cases pa <;> cases cir <;> cases bt <;> cases ba <;> cases cip <;>
      simp [validateFinancialParams, checkNumericFields, requiredFields,
        getField, jsLE, jsGT]
    rename_i pa cir bt ba cip
    split_ifs with h1 h2
    · refine iff_of_false (by simp) ?_
      rintro ⟨hpa, hbt0, hbt1⟩
      rcases (show bt ≤ 0 ∨ 1 < bt by simpa using h1) with h | h <;> linarith
    · refine iff_of_false (by simp) ?_
      rintro ⟨hpa, hbt0, hbt1⟩
      have hpa0 : pa ≤ 0 := by simpa using h2
      linarith
    · have hb : ¬ (bt ≤ 0 ∨ 1 < bt) := by simpa using h1
      have hp : ¬ pa ≤ 0 := by simpa using h2
      push_neg at hb hp
      exact iff_of_true rfl ⟨hp, hb.1, hb.2⟩
  · intro p
    obtain ⟨pa, cir, mir, bt, ba, cip⟩ := p
    cases pa <;> cases cir <;> cases bt <;> cases ba <;> cases cip <;>
      simp [validateFinancialParams, checkNumericFields, requiredFields,
        getField, jsLE, jsGT]
    split_ifs <;> simp
  · norm_num [validateFinancialParams, checkNumericFields, requiredFields,
      getField, jsLE, jsGT, rawWithBadThreshold]
  · norm_num [validateFinancialParams, checkNumericFields, requiredFields,
      getField, jsLE, jsGT, rawWithBadPrincipal]

/-- C9: the validator never examines `MONTHLY_INTEREST_RATE` — changing
or removing that field never changes its outcome, and the default
parameter set with that field removed is still accepted. -/
theorem validate_ignores_monthly_rate :
    (∀ (p : RawParams) (m : JSNum),
        validateFinancialParams (withMonthlyRate p m) = validateFinancialParams p) ∧
      validateFinancialParams (withMonthlyRate FINANCIAL_PARAMS_RAW none) =
        Except.ok true := by
  constructor
  · intro p m
    rfl
  · norm_num [validateFinancialParams, checkNumericFields, requiredFields,
      getField, jsLE, jsGT, withMonthlyRate, FINANCIAL_PARAMS_RAW]

end FinancialAutomation
